import Mathlib

/-! Group lifecycle of the Twingate provider.

A shallow embedding of `twingate/resource_group.go` (the four lifecycle
callbacks of the `twingate_group` resource) and of the destroy check of
`twingate/resource_resource_test.go`.

The remote client and the plugin SDK are collaborators of the embedded code:
the client is a record of state-passing functions over an arbitrary remote
state, and `schema.ResourceData` is a record holding the three tracked fields
together with the answers the SDK gives to `HasChange("name")` and to writes.
Every callback returns, next to its diagnostics, the sequence of remote calls
it made and the sequence of `Set` keys it attempted.
-/

namespace Twingate

/-! ## Errors and diagnostics -/

/-- A Go `error` value: the text of `Error()` and whether the remote meant
"the object does not exist". -/
structure Err where
  message : String
  notFound : Bool
  deriving DecidableEq, Repr

/-- Severity of a diagnostic, `diag.Error` or `diag.Warning`. -/
inductive Severity where
  | Error
  | Warning
  deriving DecidableEq, Repr

/-- One entry of `diag.Diagnostics`. -/
structure Diagnostic where
  severity : Severity
  summary : String
  deriving DecidableEq, Repr

/-- The SDK type `diag.Diagnostics`; `var diags diag.Diagnostics` is `[]`. -/
abbrev Diagnostics := List Diagnostic

/-- The SDK function `diag.FromErr` applied to a non-nil error: a single
diagnostic of severity `Error` whose summary is the text of the error. -/
def FromErr (e : Err) : Diagnostics :=
  [{ severity := Severity.Error, summary := e.message }]

/-- The SDK method `Diagnostics.HasError`: some entry has severity `Error`. -/
def HasError (ds : Diagnostics) : Bool :=
  ds.any (fun x => decide (x.severity = Severity.Error))

/-! ## Remote client -/

/-- A `graphql.ID`, which is Go's `interface{}`: either it holds a string or it
holds something else, in which case the assertion `.(string)` panics. -/
inductive ID where
  | str (s : String)
  | other
  deriving DecidableEq, Repr

/-- The client's `Group` record. -/
structure Group where
  ID : ID
  Name : String
  IsActive : Bool
  deriving DecidableEq, Repr

/-- A remote call, with the arguments it was given. -/
inductive Call where
  | createGroup (name : String)
  | readGroup (id : String)
  | updateGroup (id : String) (name : String)
  | deleteGroup (id : String)
  | deleteResource (id : String)
  deriving DecidableEq, Repr

/-- A remote call that was made, and whether it returned a nil error. -/
structure Event where
  call : Call
  ok : Bool
  deriving DecidableEq, Repr

/-- The methods of `*Client` used by the embedded code, over a remote state
`σ` threaded through every call. A Go result `(value, err)` is `Except`, a
result `err` alone is `Option Err` with `none` for nil. -/
structure Client (σ : Type) where
  createGroup : σ → String → Except Err Group × σ
  readGroup : σ → String → Except Err Group × σ
  updateGroup : σ → String → String → Option Err × σ
  deleteGroup : σ → String → Option Err × σ
  deleteResource : σ → String → Option Err × σ

/-- Whether a `(value, err)` result has a nil error. -/
def succeeded {α : Type} (x : Except Err α) : Bool :=
  match x with
  | Except.ok _ => true
  | Except.error _ => false

/-! ## Local state -/

/-- The part of `schema.ResourceData` the group callbacks touch: the id, the
value `Get("name")` returns, the `active` attribute, the answer of
`HasChange("name")`, and the error (if any) with which the field writer
rejects a value for `name` and for `active`. -/
structure ResourceData where
  id : String
  name : String
  active : Bool
  nameChanged : Bool
  nameErr : String → Option Err
  activeErr : Bool → Option Err

namespace ResourceData

/-- The method `Id()`. -/
def Id (d : ResourceData) : String := d.id

/-- The method `SetId(v)`. -/
def SetId (d : ResourceData) (v : String) : ResourceData := { d with id := v }

/-- The call `Get("name").(string)`. -/
def GetName (d : ResourceData) : String := d.name

/-- The call `HasChange("name")`. -/
def HasChangeName (d : ResourceData) : Bool := d.nameChanged

/-- The call `Set("name", v)`: the writer either rejects the value and leaves
the data alone, or stores it. -/
def SetName (d : ResourceData) (v : String) : Option Err × ResourceData :=
  match d.nameErr v with
  | some e => (some e, d)
  | none => (none, { d with name := v })

/-- The call `Set("active", v)`. -/
def SetActive (d : ResourceData) (v : Bool) : Option Err × ResourceData :=
  match d.activeErr v with
  | some e => (some e, d)
  | none => (none, { d with active := v })

/-- The tracked local state: id, name, active. -/
def tracked (d : ResourceData) : String × String × Bool := (d.id, d.name, d.active)

end ResourceData

/-! ## Results of a callback -/

/-- How a callback ended: it returned diagnostics, or a type assertion
panicked. -/
inductive Outcome where
  | returned (diags : Diagnostics)
  | panicked
  deriving DecidableEq, Repr

/-- Everything observable after a callback: how it ended, the resource data,
the remote state, the remote calls made (in order) and the keys passed to
`Set` (in order). -/
structure Result (σ : Type) where
  outcome : Outcome
  data : ResourceData
  remote : σ
  trace : List Event
  writes : List String

/-- The diagnostics of a result contain an error. -/
def Result.failed {σ : Type} (res : Result σ) : Bool :=
  match res.outcome with
  | Outcome.returned ds => HasError ds
  | Outcome.panicked => false

/-! ## The callbacks of `resource_group.go` -/

/-- The callback `resourceGroupRead` (lines 94-117). -/
def resourceGroupRead {σ : Type} (client : Client σ) (r : σ) (resourceData : ResourceData) :
    Result σ :=
  let groupID := resourceData.Id
  match client.readGroup r groupID with
  | (Except.error err, r1) =>
    { outcome := Outcome.returned (FromErr err), data := resourceData, remote := r1,
      trace := [⟨Call.readGroup groupID, false⟩], writes := [] }
  | (Except.ok group, r1) =>
    match resourceData.SetName group.Name with
    | (some err, d1) =>
      { outcome := Outcome.returned (FromErr err), data := d1, remote := r1,
        trace := [⟨Call.readGroup groupID, true⟩], writes := ["name"] }
    | (none, d1) =>
      match d1.SetActive group.IsActive with
      | (some err, d2) =>
        { outcome := Outcome.returned (FromErr err), data := d2, remote := r1,
          trace := [⟨Call.readGroup groupID, true⟩], writes := ["name", "active"] }
      | (none, d2) =>
        { outcome := Outcome.returned [], data := d2, remote := r1,
          trace := [⟨Call.readGroup groupID, true⟩], writes := ["name", "active"] }

/-- The callback `resourceGroupCreate` (lines 43-57). -/
def resourceGroupCreate {σ : Type} (client : Client σ) (r : σ) (resourceData : ResourceData) :
    Result σ :=
  let groupName := resourceData.GetName
  match client.createGroup r groupName with
  | (Except.error err, r1) =>
    { outcome := Outcome.returned (FromErr err), data := resourceData, remote := r1,
      trace := [⟨Call.createGroup groupName, false⟩], writes := [] }
  | (Except.ok group, r1) =>
    match group.ID with
    | ID.other =>
      { outcome := Outcome.panicked, data := resourceData, remote := r1,
        trace := [⟨Call.createGroup groupName, true⟩], writes := [] }
    | ID.str s =>
      let res := resourceGroupRead client r1 (resourceData.SetId s)
      { res with trace := ⟨Call.createGroup groupName, true⟩ :: res.trace }

/-- The callback `resourceGroupUpdate` (lines 59-75). -/
def resourceGroupUpdate {σ : Type} (client : Client σ) (r : σ) (resourceData : ResourceData) :
    Result σ :=
  let groupID := resourceData.Id
  let groupName := resourceData.GetName
  if resourceData.HasChangeName then
    match client.updateGroup r groupID groupName with
    | (some err, r1) =>
      { outcome := Outcome.returned (FromErr err), data := resourceData, remote := r1,
        trace := [⟨Call.updateGroup groupID groupName, false⟩], writes := [] }
    | (none, r1) =>
      let res := resourceGroupRead client r1 resourceData
      { res with trace := ⟨Call.updateGroup groupID groupName, true⟩ :: res.trace }
  else
    resourceGroupRead client r resourceData

/-- The callback `resourceGroupDelete` (lines 77-92). -/
def resourceGroupDelete {σ : Type} (client : Client σ) (r : σ) (resourceData : ResourceData) :
    Result σ :=
  let groupID := resourceData.Id
  match client.deleteGroup r groupID with
  | (some err, r1) =>
    { outcome := Outcome.returned (FromErr err), data := resourceData, remote := r1,
      trace := [⟨Call.deleteGroup groupID, false⟩], writes := [] }
  | (none, r1) =>
    { outcome := Outcome.returned [], data := resourceData, remote := r1,
      trace := [⟨Call.deleteGroup groupID, true⟩], writes := [] }

/-! ## The destroy check of `resource_resource_test.go` -/

/-- One entry of `s.RootModule().Resources`: its `Type` and `Primary.ID`. -/
structure ResourceState where
  type : String
  id : String
  deriving DecidableEq, Repr

/-- What the destroy check leaves behind: the returned error (`none` for nil),
the remote state and the remote calls made. -/
structure CheckResult (σ : Type) where
  err : Option Err
  remote : σ
  trace : List Event

/-- The function `testAccCheckTwingateResourceDestroy` (lines 170-188), over
the entries in the order the `range` loop visits them. -/
def testAccCheckTwingateResourceDestroy {σ : Type} (client : Client σ) (r : σ) :
    List ResourceState → CheckResult σ
  | [] => { err := none, remote := r, trace := [] }
  | rs :: rest =>
    if rs.type ≠ "twingate_resource" then
      testAccCheckTwingateResourceDestroy client r rest
    else
      let resourceId := rs.id
      match client.deleteResource r resourceId with
      | (none, r1) =>
        { err := some ⟨"resource with ID " ++ resourceId ++ " still present : ", false⟩,
          remote := r1, trace := [⟨Call.deleteResource resourceId, true⟩] }
      | (some _, r1) =>
        let res := testAccCheckTwingateResourceDestroy client r1 rest
        { res with trace := ⟨Call.deleteResource resourceId, false⟩ :: res.trace }

/-! ## The sibling mapper of the resource callbacks -/

/-- The keys of the configuration surface of a `twingate_resource` that a read
maps a response into. -/
def resourceFields : List String :=
  ["name", "remote_network_id", "address", "group_ids", "protocols"]

/-- Modelled from the spec: `resourceResourceReadDiagnostics`, which the unit
test calls and which lives in `resource_resource.go`, a file that is not among
the sources. The spec has the reconciler map a response "back into the
configuration's shape" and calls a mapping failure "fatal for that call,
surfaced immediately": the fields are written in turn, and the first write the
writer rejects ends the call with that error as its diagnostics. The writer is
given as the error with which it rejects a key (`none` when it accepts). -/
def resourceResourceReadDiagnostics (writeErr : String → Option Err) :
    List String → Diagnostics
  | [] => []
  | key :: rest =>
    match writeErr key with
    | some e => FromErr e
    | none => resourceResourceReadDiagnostics writeErr rest

/-- The writer of `&schema.ResourceData{}`, which has no schema: every key is
rejected. -/
def noSchemaWriter : String → Option Err :=
  fun key => some ⟨"Invalid address to set: " ++ key, false⟩

/-! ## Concrete remotes and states used to instantiate the theorems -/

/-- A remote without state on which every call fails with `e`. -/
def failingClient (e : Err) : Client Unit where
  createGroup := fun r _ => (Except.error e, r)
  readGroup := fun r _ => (Except.error e, r)
  updateGroup := fun r _ _ => (some e, r)
  deleteGroup := fun r _ => (some e, r)
  deleteResource := fun r _ => (some e, r)

/-- A remote without state on which every call succeeds; `createGroup` and
`readGroup` answer with `g`. -/
def constClient (g : Group) : Client Unit where
  createGroup := fun r _ => (Except.ok g, r)
  readGroup := fun r _ => (Except.ok g, r)
  updateGroup := fun r _ _ => (none, r)
  deleteGroup := fun r _ => (none, r)
  deleteResource := fun r _ => (none, r)

/-- A remote without state on which the mutations succeed (`createGroup`
answers with `g`) and `readGroup` fails with `e`. -/
def unreadableClient (g : Group) (e : Err) : Client Unit where
  createGroup := fun r _ => (Except.ok g, r)
  readGroup := fun r _ => (Except.error e, r)
  updateGroup := fun r _ _ => (none, r)
  deleteGroup := fun r _ => (none, r)
  deleteResource := fun r _ => (none, r)

/-- A remote whose state is the list of ids that exist: deleting an id that
exists removes it, deleting any other id fails. -/
def listClient : Client (List String) where
  createGroup := fun r n => (Except.ok ⟨ID.str n, n, true⟩, n :: r)
  readGroup := fun r i =>
    if i ∈ r then (Except.ok ⟨ID.str i, i, true⟩, r) else (Except.error ⟨"not found", true⟩, r)
  updateGroup := fun r i _ => if i ∈ r then (none, r) else (some ⟨"not found", true⟩, r)
  deleteGroup := fun r i =>
    if i ∈ r then (none, r.filter (fun x => decide (x ≠ i))) else (some ⟨"not found", true⟩, r)
  deleteResource := fun r i =>
    if i ∈ r then (none, r.filter (fun x => decide (x ≠ i))) else (some ⟨"not found", true⟩, r)

/-- A resource data with a schema: every write is accepted. -/
def sampleData (id name : String) (changed : Bool) : ResourceData where
  id := id
  name := name
  active := false
  nameChanged := changed
  nameErr := fun _ => none
  activeErr := fun _ => none

/-- A resource data whose writer accepts `name` and rejects `active`. -/
def halfWritableData (id name : String) (e : Err) : ResourceData where
  id := id
  name := name
  active := false
  nameChanged := false
  nameErr := fun _ => none
  activeErr := fun _ => some e

/-- The group the sample remotes answer with. -/
def sampleGroup : Group := ⟨ID.str "g1", "ops", true⟩

/-- The error the sample remotes fail with. -/
def sampleErr : Err := ⟨"group does not exist", true⟩

/-! ## Equations of the read callback, one per path -/

theorem read_eq_of_readGroup_error {σ : Type} (c : Client σ) (r r1 : σ) (d : ResourceData)
    (e : Err) (h : c.readGroup r d.id = (Except.error e, r1)) :
    resourceGroupRead c r d =
      { outcome := Outcome.returned (FromErr e), data := d, remote := r1,
        trace := [⟨Call.readGroup d.id, false⟩], writes := [] } := by
  simp only [resourceGroupRead, ResourceData.Id, h]

theorem read_eq_of_name_rejected {σ : Type} (c : Client σ) (r r1 : σ) (d : ResourceData)
    (g : Group) (e : Err) (h : c.readGroup r d.id = (Except.ok g, r1))
    (hn : d.nameErr g.Name = some e) :
    resourceGroupRead c r d =
      { outcome := Outcome.returned (FromErr e), data := d, remote := r1,
        trace := [⟨Call.readGroup d.id, true⟩], writes := ["name"] } := by
  simp only [resourceGroupRead, ResourceData.Id, h, ResourceData.SetName, hn]

theorem read_eq_of_active_rejected {σ : Type} (c : Client σ) (r r1 : σ) (d : ResourceData)
    (g : Group) (e : Err) (h : c.readGroup r d.id = (Except.ok g, r1))
    (hn : d.nameErr g.Name = none) (ha : d.activeErr g.IsActive = some e) :
    resourceGroupRead c r d =
      { outcome := Outcome.returned (FromErr e), data := { d with name := g.Name }, remote := r1,
        trace := [⟨Call.readGroup d.id, true⟩], writes := ["name", "active"] } := by
  simp only [resourceGroupRead, ResourceData.Id, h, ResourceData.SetName, hn,
    ResourceData.SetActive, ha]

theorem read_eq_of_written {σ : Type} (c : Client σ) (r r1 : σ) (d : ResourceData)
    (g : Group) (h : c.readGroup r d.id = (Except.ok g, r1))
    (hn : d.nameErr g.Name = none) (ha : d.activeErr g.IsActive = none) :
    resourceGroupRead c r d =
      { outcome := Outcome.returned [], data := { d with name := g.Name, active := g.IsActive },
        remote := r1, trace := [⟨Call.readGroup d.id, true⟩], writes := ["name", "active"] } := by
  simp only [resourceGroupRead, ResourceData.Id, h, ResourceData.SetName, hn,
    ResourceData.SetActive, ha]

theorem read_trace {σ : Type} (c : Client σ) (r : σ) (d : ResourceData) :
    (resourceGroupRead c r d).trace
      = [⟨Call.readGroup d.id, succeeded (c.readGroup r d.id).1⟩] := by
  rcases h : c.readGroup r d.id with ⟨x, r1⟩
  cases x with
  | error e => rw [read_eq_of_readGroup_error c r r1 d e h]; rfl
  | ok g =>
    cases hn : d.nameErr g.Name with
    | some e => rw [read_eq_of_name_rejected c r r1 d g e h hn]; rfl
    | none =>
      cases ha : d.activeErr g.IsActive with
      | some e => rw [read_eq_of_active_rejected c r r1 d g e h hn ha]; rfl
      | none => rw [read_eq_of_written c r r1 d g h hn ha]; rfl

theorem hasError_fromErr (e : Err) : HasError (FromErr e) = true := by
  simp [HasError, FromErr]

/-! ## Successful reads -/

/-- C9: when `readGroup(i)` succeeds with name `n` and activity `a` and both
writes are accepted, `resourceGroupRead` makes the single call `readGroup(i)`,
returns empty diagnostics, and ends with name `n`, active `a` and the id it
started with; a further read against a remote that answers with the same name
and activity leaves the resource data as it is. -/
theorem read_success_maps_response_and_is_idempotent {σ : Type} (c : Client σ) (r r1 : σ)
    (d : ResourceData) (g : Group) (h : c.readGroup r d.id = (Except.ok g, r1))
    (hn : d.nameErr g.Name = none) (ha : d.activeErr g.IsActive = none) :
    (resourceGroupRead c r d).trace = [⟨Call.readGroup d.id, true⟩] ∧
    (resourceGroupRead c r d).outcome = Outcome.returned [] ∧
    (resourceGroupRead c r d).data.name = g.Name ∧
    (resourceGroupRead c r d).data.active = g.IsActive ∧
    (resourceGroupRead c r d).data.id = d.id ∧
    (resourceGroupRead c r d).remote = r1 ∧
    ∀ (c2 : Client σ) (r2 r3 : σ) (g2 : Group),
      c2.readGroup r2 d.id = (Except.ok g2, r3) → g2.Name = g.Name → g2.IsActive = g.IsActive →
      (resourceGroupRead c2 r2 (resourceGroupRead c r d).data).outcome = Outcome.returned [] ∧
      (resourceGroupRead c2 r2 (resourceGroupRead c r d).data).data = (resourceGroupRead c r d).data := by
  rw [read_eq_of_written c r r1 d g h hn ha]
  refine ⟨rfl, rfl, rfl, rfl, rfl, rfl, ?_⟩
  intro c2 r2 r3 g2 h2 e1 e2
  have hn2 : ({ d with name := g.Name, active := g.IsActive } : ResourceData).nameErr g2.Name
      = none := by rw [e1]; exact hn
  have ha2 : ({ d with name := g.Name, active := g.IsActive } : ResourceData).activeErr
      g2.IsActive = none := by rw [e2]; exact ha
  dsimp only
  rw [read_eq_of_written c2 r2 r3 { d with name := g.Name, active := g.IsActive } g2 h2 hn2 ha2]
  refine ⟨rfl, ?_⟩
  simp only [e1, e2]

theorem read_success_maps_response_and_is_idempotent_witness :
    (resourceGroupRead (constClient sampleGroup) () (sampleData "g1" "dev" false)).trace
      = [⟨Call.readGroup "g1", true⟩] ∧
    (resourceGroupRead (constClient sampleGroup) () (sampleData "g1" "dev" false)).outcome
      = Outcome.returned [] ∧
    (resourceGroupRead (constClient sampleGroup) () (sampleData "g1" "dev" false)).data.name
      = "ops" ∧
    (resourceGroupRead (constClient sampleGroup) () (sampleData "g1" "dev" false)).data.active
      = true ∧
    (resourceGroupRead (constClient sampleGroup) () (sampleData "g1" "dev" false)).data.id
      = "g1" ∧
    (constClient sampleGroup).readGroup () (sampleData "g1" "dev" false).id
      = (Except.ok sampleGroup, ()) :=
  have h := read_success_maps_response_and_is_idempotent (constClient sampleGroup) () ()
    (sampleData "g1" "dev" false) sampleGroup rfl rfl rfl
  ⟨h.1, h.2.1, h.2.2.1, h.2.2.2.1, h.2.2.2.2.1, rfl⟩

/-! ## Mapping failures -/

theorem mapper_fails_of_rejected (w : String → Option Err) (k : String) (ks : List String)
    (hk : w k ≠ none) : HasError (resourceResourceReadDiagnostics w (k :: ks)) = true := by
  cases hw : w k with
  | none => exact absurd hw hk
  | some e => simp only [resourceResourceReadDiagnostics, hw, hasError_fromErr]

/-- C10: after a successful `readGroup`, a rejected write of `name` makes
`resourceGroupRead` return diagnostics with an error without ever attempting
the write of `active`, and an accepted write of `name` followed by a rejected
write of `active` makes it return diagnostics with an error as well. The
sibling mapper `resourceResourceReadDiagnostics` returns diagnostics with an
error whenever the writer rejects every key, as it does for a resource data
without schema. -/
theorem read_mapping_failure_is_fatal {σ : Type} (c : Client σ) (r r1 : σ) (d : ResourceData)
    (g : Group) (h : c.readGroup r d.id = (Except.ok g, r1)) :
    (∀ e, d.nameErr g.Name = some e →
      (resourceGroupRead c r d).outcome = Outcome.returned (FromErr e) ∧
      (resourceGroupRead c r d).failed = true ∧
      (resourceGroupRead c r d).writes = ["name"] ∧
      "active" ∉ (resourceGroupRead c r d).writes) ∧
    (∀ e, d.nameErr g.Name = none → d.activeErr g.IsActive = some e →
      (resourceGroupRead c r d).outcome = Outcome.returned (FromErr e) ∧
      (resourceGroupRead c r d).failed = true ∧
      (resourceGroupRead c r d).writes = ["name", "active"]) ∧
    (∀ w : String → Option Err, (∀ k, w k ≠ none) →
      HasError (resourceResourceReadDiagnostics w resourceFields) = true) ∧
    HasError (resourceResourceReadDiagnostics noSchemaWriter resourceFields) = true := by
  refine ⟨?_, ?_, ?_, ?_⟩
  · intro e hn
    rw [read_eq_of_name_rejected c r r1 d g e h hn]
    refine ⟨rfl, ?_, rfl, ?_⟩
    · simp only [Result.failed, hasError_fromErr]
    · simp
  · intro e hn ha
    rw [read_eq_of_active_rejected c r r1 d g e h hn ha]
    refine ⟨rfl, ?_, rfl⟩
    simp only [Result.failed, hasError_fromErr]
  · intro w hw
    exact mapper_fails_of_rejected w _ _ (hw _)
  · exact mapper_fails_of_rejected noSchemaWriter _ _ (by simp [noSchemaWriter])

theorem read_mapping_failure_is_fatal_witness :
    (constClient sampleGroup).readGroup () (halfWritableData "g1" "dev" sampleErr).id
      = (Except.ok sampleGroup, ()) ∧
    (resourceGroupRead (constClient sampleGroup) () (halfWritableData "g1" "dev" sampleErr)).outcome
      = Outcome.returned (FromErr sampleErr) ∧
    (resourceGroupRead (constClient sampleGroup) () (halfWritableData "g1" "dev" sampleErr)).failed
      = true :=
  have h := (read_mapping_failure_is_fatal (constClient sampleGroup) () ()
    (halfWritableData "g1" "dev" sampleErr) sampleGroup rfl).2.1 sampleErr rfl rfl
  ⟨rfl, h.1, h.2.1⟩

/-! ## Update -/

/-- C5: the trace of `resourceGroupUpdate` contains an `updateGroup` call
exactly when `HasChange("name")` is true; it then is the first call of the
trace, carries the current id and the configured name, and everything after it
is a `readGroup` call, so there is exactly one and it precedes any read. -/
theorem update_calls_updateGroup_iff_name_changed {σ : Type} (c : Client σ) (r : σ)
    (d : ResourceData) :
    ((∃ ev ∈ (resourceGroupUpdate c r d).trace, ∃ i n, ev.call = Call.updateGroup i n) ↔
      d.HasChangeName = true) ∧
    (d.HasChangeName = true →
      ∃ ok rest, (resourceGroupUpdate c r d).trace
          = ⟨Call.updateGroup d.Id d.GetName, ok⟩ :: rest ∧
        ∀ ev ∈ rest, ev.call = Call.readGroup d.Id) ∧
    (d.HasChangeName = false →
      ∀ ev ∈ (resourceGroupUpdate c r d).trace, ev.call = Call.readGroup d.Id) := by
  have hread : ∀ (r0 : σ), ∀ ev ∈ (resourceGroupRead c r0 d).trace,
      ev.call = Call.readGroup d.Id := by
    intro r0 ev hev
    rw [read_trace, List.mem_singleton] at hev
    rw [hev]
    rfl
  cases hc : d.nameChanged with
  | false =>
    have hu : resourceGroupUpdate c r d = resourceGroupRead c r d := by
      simp [resourceGroupUpdate, ResourceData.HasChangeName, hc]
    rw [hu]
    refine ⟨?_, ?_, ?_⟩
    · simp only [ResourceData.HasChangeName, hc, Bool.false_eq_true, iff_false, not_exists,
        not_and]
      intro ev hev i n hcall
      rw [hread r ev hev] at hcall
      cases hcall
    · simp [ResourceData.HasChangeName, hc]
    · intro _ ev hev
      exact hread r ev hev
  | true =>
    cases hup : c.updateGroup r d.id d.name with
    | mk oe r1 =>
      cases oe with
      | some e =>
        have hu : (resourceGroupUpdate c r d).trace
            = [⟨Call.updateGroup d.Id d.GetName, false⟩] := by
          simp [resourceGroupUpdate, ResourceData.HasChangeName, hc, ResourceData.Id,
            ResourceData.GetName, hup]
        rw [hu]
        refine ⟨?_, ?_, ?_⟩
        · simp [ResourceData.HasChangeName, hc]
        · intro _
          exact ⟨false, [], rfl, by simp⟩
        · simp [ResourceData.HasChangeName, hc]
      | none =>
        have hu : (resourceGroupUpdate c r d).trace
            = ⟨Call.updateGroup d.Id d.GetName, true⟩ :: (resourceGroupRead c r1 d).trace := by
          simp [resourceGroupUpdate, ResourceData.HasChangeName, hc, ResourceData.Id,
            ResourceData.GetName, hup]
        rw [hu]
        refine ⟨?_, ?_, ?_⟩
        · simp [ResourceData.HasChangeName, hc]
        · intro _
          exact ⟨true, _, rfl, hread r1⟩
        · simp [ResourceData.HasChangeName, hc]

theorem update_calls_updateGroup_iff_name_changed_witness :
    (sampleData "g1" "dev" true).HasChangeName = true ∧
    ∃ ok rest, (resourceGroupUpdate (constClient sampleGroup) () (sampleData "g1" "dev" true)).trace
        = ⟨Call.updateGroup "g1" "dev", ok⟩ :: rest ∧
      ∀ ev ∈ rest, ev.call = Call.readGroup "g1" :=
  ⟨rfl, (update_calls_updateGroup_iff_name_changed (constClient sampleGroup) ()
    (sampleData "g1" "dev" true)).2.1 rfl⟩

/-! ## Create -/

theorem create_eq_of_created {σ : Type} (c : Client σ) (r r1 : σ) (d : ResourceData)
    (g : Group) (i : String) (h : c.createGroup r d.name = (Except.ok g, r1))
    (hid : g.ID = ID.str i) :
    resourceGroupCreate c r d =
      { resourceGroupRead c r1 (d.SetId i) with
        trace := ⟨Call.createGroup d.name, true⟩ :: (resourceGroupRead c r1 (d.SetId i)).trace } := by
  simp only [resourceGroupCreate, ResourceData.GetName, h, hid]

theorem create_eq_of_createGroup_error {σ : Type} (c : Client σ) (r r1 : σ) (d : ResourceData)
    (e : Err) (h : c.createGroup r d.name = (Except.error e, r1)) :
    resourceGroupCreate c r d =
      { outcome := Outcome.returned (FromErr e), data := d, remote := r1,
        trace := [⟨Call.createGroup d.name, false⟩], writes := [] } := by
  simp only [resourceGroupCreate, ResourceData.GetName, h]

theorem create_eq_of_panic {σ : Type} (c : Client σ) (r r1 : σ) (d : ResourceData)
    (g : Group) (h : c.createGroup r d.name = (Except.ok g, r1)) (hid : g.ID = ID.other) :
    resourceGroupCreate c r d =
      { outcome := Outcome.panicked, data := d, remote := r1,
        trace := [⟨Call.createGroup d.name, true⟩], writes := [] } := by
  simp only [resourceGroupCreate, ResourceData.GetName, h, hid]

/-- C6: when `createGroup(name)` succeeds with a string id `i`,
`resourceGroupCreate` first calls `createGroup` with the configured name, sets
the id to `i`, and from there is `resourceGroupRead` on the data with id `i`:
same outcome, same final data, same remote state, and the trace of the read
after the create call. When that read succeeds with name `n` and activity `a`
and both writes are accepted, the diagnostics are empty and the final data has
id `i`, name `n` and active `a`. -/
theorem create_then_behaves_like_read {σ : Type} (c : Client σ) (r r1 : σ) (d : ResourceData)
    (g : Group) (i : String) (h : c.createGroup r d.GetName = (Except.ok g, r1))
    (hid : g.ID = ID.str i) :
    (resourceGroupCreate c r d).trace
      = ⟨Call.createGroup d.GetName, true⟩ :: (resourceGroupRead c r1 (d.SetId i)).trace ∧
    (d.SetId i).Id = i ∧
    (resourceGroupCreate c r d).outcome = (resourceGroupRead c r1 (d.SetId i)).outcome ∧
    (resourceGroupCreate c r d).data = (resourceGroupRead c r1 (d.SetId i)).data ∧
    (resourceGroupCreate c r d).remote = (resourceGroupRead c r1 (d.SetId i)).remote ∧
    (resourceGroupCreate c r d).writes = (resourceGroupRead c r1 (d.SetId i)).writes ∧
    ∀ (g2 : Group) (r2 : σ), c.readGroup r1 i = (Except.ok g2, r2) →
      d.nameErr g2.Name = none → d.activeErr g2.IsActive = none →
      (resourceGroupCreate c r d).outcome = Outcome.returned [] ∧
      (resourceGroupCreate c r d).data.id = i ∧
      (resourceGroupCreate c r d).data.name = g2.Name ∧
      (resourceGroupCreate c r d).data.active = g2.IsActive ∧
      (resourceGroupCreate c r d).trace
        = [⟨Call.createGroup d.GetName, true⟩, ⟨Call.readGroup i, true⟩] := by
  rw [create_eq_of_created c r r1 d g i h hid]
  refine ⟨rfl, rfl, rfl, rfl, rfl, rfl, ?_⟩
  intro g2 r2 h2 hn ha
  dsimp only
  rw [read_eq_of_written c r1 r2 (d.SetId i) g2 h2 hn ha]
  exact ⟨rfl, rfl, rfl, rfl, rfl⟩

theorem create_then_behaves_like_read_witness :
    (constClient sampleGroup).createGroup () (sampleData "" "ops" false).GetName
      = (Except.ok sampleGroup, ()) ∧
    (resourceGroupCreate (constClient sampleGroup) () (sampleData "" "ops" false)).outcome
      = Outcome.returned [] ∧
    (resourceGroupCreate (constClient sampleGroup) () (sampleData "" "ops" false)).data.id
      = "g1" ∧
    (resourceGroupCreate (constClient sampleGroup) () (sampleData "" "ops" false)).data.name
      = "ops" ∧
    (resourceGroupCreate (constClient sampleGroup) () (sampleData "" "ops" false)).data.active
      = true :=
  have h := (create_then_behaves_like_read (constClient sampleGroup) () ()
    (sampleData "" "ops" false) sampleGroup "g1" rfl rfl).2.2.2.2.2.2 sampleGroup () rfl rfl rfl
  ⟨rfl, h.1, h.2.1, h.2.2.1, h.2.2.2.1⟩

/-! ## Remote failures -/

theorem update_eq_of_unchanged {σ : Type} (c : Client σ) (r : σ) (d : ResourceData)
    (hc : d.nameChanged = false) : resourceGroupUpdate c r d = resourceGroupRead c r d := by
  simp [resourceGroupUpdate, ResourceData.HasChangeName, hc]

theorem update_eq_of_updateGroup_error {σ : Type} (c : Client σ) (r r1 : σ) (d : ResourceData)
    (e : Err) (hc : d.nameChanged = true) (h : c.updateGroup r d.id d.name = (some e, r1)) :
    resourceGroupUpdate c r d =
      { outcome := Outcome.returned (FromErr e), data := d, remote := r1,
        trace := [⟨Call.updateGroup d.id d.name, false⟩], writes := [] } := by
  simp [resourceGroupUpdate, ResourceData.HasChangeName, hc, ResourceData.Id,
    ResourceData.GetName, h]

theorem update_eq_of_updated {σ : Type} (c : Client σ) (r r1 : σ) (d : ResourceData)
    (hc : d.nameChanged = true) (h : c.updateGroup r d.id d.name = (none, r1)) :
    resourceGroupUpdate c r d =
      { resourceGroupRead c r1 d with
        trace := ⟨Call.updateGroup d.id d.name, true⟩ :: (resourceGroupRead c r1 d).trace } := by
  simp [resourceGroupUpdate, ResourceData.HasChangeName, hc, ResourceData.Id,
    ResourceData.GetName, h]

theorem delete_eq_of_deleteGroup_error {σ : Type} (c : Client σ) (r r1 : σ) (d : ResourceData)
    (e : Err) (h : c.deleteGroup r d.id = (some e, r1)) :
    resourceGroupDelete c r d =
      { outcome := Outcome.returned (FromErr e), data := d, remote := r1,
        trace := [⟨Call.deleteGroup d.id, false⟩], writes := [] } := by
  simp only [resourceGroupDelete, ResourceData.Id, h]

theorem delete_eq_of_deleted {σ : Type} (c : Client σ) (r r1 : σ) (d : ResourceData)
    (h : c.deleteGroup r d.id = (none, r1)) :
    resourceGroupDelete c r d =
      { outcome := Outcome.returned [], data := d, remote := r1,
        trace := [⟨Call.deleteGroup d.id, true⟩], writes := [] } := by
  simp only [resourceGroupDelete, ResourceData.Id, h]

/-- C7: when the first remote call of an operation fails with error `e`
(`createGroup` in create, `updateGroup` in update with a changed name,
`deleteGroup` in delete, `readGroup` in read), the operation returns exactly
one diagnostic, of severity error and with the message of `e` as its summary,
its trace is that one failed call (no `readGroup` follows a failed
`createGroup` or `updateGroup`), and the resource data is untouched; a create
that started with an empty id ends with an empty id. -/
theorem remote_error_short_circuits {σ : Type} (c : Client σ) (r r1 : σ) (d : ResourceData)
    (e : Err) :
    (c.createGroup r d.GetName = (Except.error e, r1) →
      (resourceGroupCreate c r d).outcome
        = Outcome.returned [⟨Severity.Error, e.message⟩] ∧
      (resourceGroupCreate c r d).trace = [⟨Call.createGroup d.GetName, false⟩] ∧
      (resourceGroupCreate c r d).data = d ∧
      (d.id = "" → (resourceGroupCreate c r d).data.id = "")) ∧
    (d.HasChangeName = true → c.updateGroup r d.Id d.GetName = (some e, r1) →
      (resourceGroupUpdate c r d).outcome
        = Outcome.returned [⟨Severity.Error, e.message⟩] ∧
      (resourceGroupUpdate c r d).trace = [⟨Call.updateGroup d.Id d.GetName, false⟩] ∧
      (resourceGroupUpdate c r d).data = d) ∧
    (c.deleteGroup r d.Id = (some e, r1) →
      (resourceGroupDelete c r d).outcome
        = Outcome.returned [⟨Severity.Error, e.message⟩] ∧
      (resourceGroupDelete c r d).trace = [⟨Call.deleteGroup d.Id, false⟩] ∧
      (resourceGroupDelete c r d).data = d) ∧
    (c.readGroup r d.Id = (Except.error e, r1) →
      (resourceGroupRead c r d).outcome
        = Outcome.returned [⟨Severity.Error, e.message⟩] ∧
      (resourceGroupRead c r d).trace = [⟨Call.readGroup d.Id, false⟩] ∧
      (resourceGroupRead c r d).data = d ∧
      (resourceGroupRead c r d).writes = []) := by
  refine ⟨?_, ?_, ?_, ?_⟩
  · intro h
    rw [create_eq_of_createGroup_error c r r1 d e h]
    exact ⟨rfl, rfl, rfl, fun h0 => h0⟩
  · intro hc h
    rw [update_eq_of_updateGroup_error c r r1 d e hc h]
    exact ⟨rfl, rfl, rfl⟩
  · intro h
    rw [delete_eq_of_deleteGroup_error c r r1 d e h]
    exact ⟨rfl, rfl, rfl⟩
  · intro h
    rw [read_eq_of_readGroup_error c r r1 d e h]
    exact ⟨rfl, rfl, rfl, rfl⟩

theorem remote_error_short_circuits_witness :
    (failingClient sampleErr).createGroup () (sampleData "" "dev" true).GetName
      = (Except.error sampleErr, ()) ∧
    (resourceGroupCreate (failingClient sampleErr) () (sampleData "" "dev" true)).outcome
      = Outcome.returned [⟨Severity.Error, "group does not exist"⟩] ∧
    (resourceGroupCreate (failingClient sampleErr) () (sampleData "" "dev" true)).data.id = "" ∧
    (resourceGroupUpdate (failingClient sampleErr) () (sampleData "" "dev" true)).trace
      = [⟨Call.updateGroup "" "dev", false⟩] ∧
    (resourceGroupDelete (failingClient sampleErr) () (sampleData "" "dev" true)).trace
      = [⟨Call.deleteGroup "", false⟩] ∧
    (resourceGroupRead (failingClient sampleErr) () (sampleData "" "dev" true)).trace
      = [⟨Call.readGroup "", false⟩] :=
  have h := remote_error_short_circuits (failingClient sampleErr) () ()
    (sampleData "" "dev" true) sampleErr
  ⟨rfl, (h.1 rfl).1, (h.1 rfl).2.2.2 rfl, (h.2.1 rfl rfl).2.1, (h.2.2.1 rfl).2.1,
    (h.2.2.2 rfl).2.1⟩

/-! ## Delete and the destroy check -/

theorem destroy_nil {σ : Type} (c : Client σ) (r : σ) :
    testAccCheckTwingateResourceDestroy c r [] = { err := none, remote := r, trace := [] } := by
  simp only [testAccCheckTwingateResourceDestroy]

theorem destroy_skip {σ : Type} (c : Client σ) (r : σ) (rs : ResourceState)
    (rest : List ResourceState) (ht : rs.type ≠ "twingate_resource") :
    testAccCheckTwingateResourceDestroy c r (rs :: rest)
      = testAccCheckTwingateResourceDestroy c r rest := by
  simp only [testAccCheckTwingateResourceDestroy, ne_eq, ht, not_false_eq_true, if_true]

theorem destroy_present {σ : Type} (c : Client σ) (r r1 : σ) (rs : ResourceState)
    (rest : List ResourceState) (ht : rs.type = "twingate_resource")
    (h : c.deleteResource r rs.id = (none, r1)) :
    testAccCheckTwingateResourceDestroy c r (rs :: rest)
      = { err := some ⟨"resource with ID " ++ rs.id ++ " still present : ", false⟩,
          remote := r1, trace := [⟨Call.deleteResource rs.id, true⟩] } := by
  simp only [testAccCheckTwingateResourceDestroy, ne_eq, ht, not_true_eq_false, if_false, h]

theorem destroy_gone {σ : Type} (c : Client σ) (r r1 : σ) (rs : ResourceState)
    (rest : List ResourceState) (e : Err) (ht : rs.type = "twingate_resource")
    (h : c.deleteResource r rs.id = (some e, r1)) :
    testAccCheckTwingateResourceDestroy c r (rs :: rest)
      = { testAccCheckTwingateResourceDestroy c r1 rest with
          trace := ⟨Call.deleteResource rs.id, false⟩
            :: (testAccCheckTwingateResourceDestroy c r1 rest).trace } := by
  simp only [testAccCheckTwingateResourceDestroy, ne_eq, ht, not_true_eq_false, if_false, h]

theorem destroy_err_iff_some_call_succeeded {σ : Type} (c : Client σ)
    (entries : List ResourceState) : ∀ r : σ,
    ((testAccCheckTwingateResourceDestroy c r entries).err.isSome = true ↔
      ∃ ev ∈ (testAccCheckTwingateResourceDestroy c r entries).trace, ev.ok = true) := by
  induction entries with
  | nil => intro r; simp [destroy_nil]
  | cons rs rest ih =>
    intro r
    by_cases ht : rs.type = "twingate_resource"
    · rcases h : c.deleteResource r rs.id with ⟨oe, r1⟩
      cases oe with
      | none => rw [destroy_present c r r1 rs rest ht h]; simp
      | some e =>
        rw [destroy_gone c r r1 rs rest e ht h]
        simpa using ih r1
    · rw [destroy_skip c r rs rest ht]
      exact ih r

theorem destroy_trace_initial_segment {σ : Type} (c : Client σ) (entries : List ResourceState) :
    ∀ r : σ,
    (testAccCheckTwingateResourceDestroy c r entries).trace.map (fun ev => ev.call) <+:
      (entries.filter (fun rs => decide (rs.type = "twingate_resource"))).map
        (fun rs => Call.deleteResource rs.id) := by
  induction entries with
  | nil => intro r; simp [destroy_nil]
  | cons rs rest ih =>
    intro r
    by_cases ht : rs.type = "twingate_resource"
    · rcases h : c.deleteResource r rs.id with ⟨oe, r1⟩
      cases oe with
      | none =>
        rw [destroy_present c r r1 rs rest ht h]
        simp [List.filter_cons, ht, List.prefix_cons_inj]
      | some e =>
        rw [destroy_gone c r r1 rs rest e ht h]
        simpa [List.filter_cons, ht, List.prefix_cons_inj] using ih r1
    · rw [destroy_skip c r rs rest ht]
      simpa [List.filter_cons, ht] using ih r

theorem destroy_err_iff_some_entry_deletable {σ : Type} (c : Client σ) (f : String → Bool)
    (hf : ∀ (r0 : σ) (i : String), (c.deleteResource r0 i).1 = none ↔ f i = true)
    (entries : List ResourceState) : ∀ r : σ,
    ((testAccCheckTwingateResourceDestroy c r entries).err.isSome = true ↔
      ∃ rs ∈ entries, rs.type = "twingate_resource" ∧ f rs.id = true) := by
  induction entries with
  | nil => intro r; simp [destroy_nil]
  | cons rs rest ih =>
    intro r
    by_cases ht : rs.type = "twingate_resource"
    · rcases h : c.deleteResource r rs.id with ⟨oe, r1⟩
      have hfr := hf r rs.id
      rw [h] at hfr
      cases oe with
      | none =>
        rw [destroy_present c r r1 rs rest ht h]
        have : f rs.id = true := hfr.mp rfl
        simp [ht, this]
      | some e =>
        rw [destroy_gone c r r1 rs rest e ht h]
        have : ¬ f rs.id = true := fun hh => by simpa using hfr.mpr hh
        simpa [ht, this] using ih r1
    · rw [destroy_skip c r rs rest ht]
      simpa [ht] using ih r

/-- C8: `resourceGroupDelete` makes exactly one call, `deleteGroup(id)`, and
returns an error diagnostic exactly when that call returns an error (and
empty diagnostics otherwise); so when a first `deleteGroup(id)` succeeds and
the remote then fails a further `deleteGroup(id)`, the first
`resourceGroupDelete` returns empty diagnostics and a second one on the same
id returns an error. `testAccCheckTwingateResourceDestroy` returns an error
exactly when one of the `deleteResource` calls it makes succeeds, which for
a remote whose answer depends on the id alone is exactly when `deleteResource`
succeeds for some entry of type `twingate_resource`; the calls it makes are
an initial segment of the `twingate_resource` entries, so none is made for an
entry of another type. -/
theorem delete_fails_once_deleted {σ : Type} (c : Client σ) (r : σ) (d : ResourceData)
    (entries : List ResourceState) :
    (resourceGroupDelete c r d).trace
      = [⟨Call.deleteGroup d.Id, decide ((c.deleteGroup r d.Id).1 = none)⟩] ∧
    ((resourceGroupDelete c r d).failed = true ↔ (c.deleteGroup r d.Id).1 ≠ none) ∧
    ((c.deleteGroup r d.Id).1 = none → (resourceGroupDelete c r d).outcome = Outcome.returned []) ∧
    (resourceGroupDelete c r d).data = d ∧
    (resourceGroupDelete c r d).remote = (c.deleteGroup r d.Id).2 ∧
    ((c.deleteGroup r d.Id).1 = none →
      (c.deleteGroup (c.deleteGroup r d.Id).2 d.Id).1 ≠ none →
      (resourceGroupDelete c r d).outcome = Outcome.returned [] ∧
      (resourceGroupDelete c (resourceGroupDelete c r d).remote
        (resourceGroupDelete c r d).data).failed = true) ∧
    ((testAccCheckTwingateResourceDestroy c r entries).err.isSome = true ↔
      ∃ ev ∈ (testAccCheckTwingateResourceDestroy c r entries).trace, ev.ok = true) ∧
    (∀ f : String → Bool,
      (∀ (r0 : σ) (i : String), (c.deleteResource r0 i).1 = none ↔ f i = true) →
      ((testAccCheckTwingateResourceDestroy c r entries).err.isSome = true ↔
        ∃ rs ∈ entries, rs.type = "twingate_resource" ∧ f rs.id = true)) ∧
    (testAccCheckTwingateResourceDestroy c r entries).trace.map (fun ev => ev.call) <+:
      (entries.filter (fun rs => decide (rs.type = "twingate_resource"))).map
        (fun rs => Call.deleteResource rs.id) := by
  have hfail : ∀ (r0 : σ), ((resourceGroupDelete c r0 d).failed = true ↔
      (c.deleteGroup r0 d.Id).1 ≠ none) := by
    intro r0
    rcases h : c.deleteGroup r0 d.id with ⟨oe, r1⟩
    cases oe with
    | none =>
      rw [delete_eq_of_deleted c r0 r1 d h]
      simp [Result.failed, HasError, ResourceData.Id, h]
    | some e =>
      rw [delete_eq_of_deleteGroup_error c r0 r1 d e h]
      simp [Result.failed, hasError_fromErr, ResourceData.Id, h]
  have hrest : (resourceGroupDelete c r d).trace
        = [⟨Call.deleteGroup d.Id, decide ((c.deleteGroup r d.Id).1 = none)⟩] ∧
      ((c.deleteGroup r d.Id).1 = none →
        (resourceGroupDelete c r d).outcome = Outcome.returned []) ∧
      (resourceGroupDelete c r d).data = d ∧
      (resourceGroupDelete c r d).remote = (c.deleteGroup r d.Id).2 := by
    rcases h : c.deleteGroup r d.id with ⟨oe, r1⟩
    cases oe with
    | none =>
      rw [delete_eq_of_deleted c r r1 d h]
      simp [ResourceData.Id, h]
    | some e =>
      rw [delete_eq_of_deleteGroup_error c r r1 d e h]
      simp [ResourceData.Id, h]
  refine ⟨hrest.1, hfail r, hrest.2.1, hrest.2.2.1, hrest.2.2.2, ?_,
    destroy_err_iff_some_call_succeeded c entries r,
    fun f hf => destroy_err_iff_some_entry_deletable c f hf entries r,
    destroy_trace_initial_segment c entries r⟩
  intro h1 h2
  refine ⟨hrest.2.1 h1, ?_⟩
  rw [hrest.2.2.1, hrest.2.2.2]
  exact (hfail _).mpr h2

theorem delete_fails_once_deleted_witness :
    (listClient.deleteGroup ["g1", "g2"] (sampleData "g1" "dev" false).Id).1 = none ∧
    (resourceGroupDelete listClient ["g1", "g2"] (sampleData "g1" "dev" false)).outcome
      = Outcome.returned [] ∧
    (resourceGroupDelete listClient
      (resourceGroupDelete listClient ["g1", "g2"] (sampleData "g1" "dev" false)).remote
      (resourceGroupDelete listClient ["g1", "g2"] (sampleData "g1" "dev" false)).data).failed
      = true :=
  have h := (delete_fails_once_deleted listClient ["g1", "g2"] (sampleData "g1" "dev" false)
    []).2.2.2.2.2.1 (by decide) (by decide)
  ⟨by decide, h.1, h.2⟩

/-! ## What a failed operation leaves behind -/

theorem read_failed_data {σ : Type} (c : Client σ) (r : σ) (d : ResourceData)
    (hf : (resourceGroupRead c r d).failed = true) :
    (resourceGroupRead c r d).data = d ∨
    ∃ (g : Group) (r1 : σ) (e : Err), c.readGroup r d.id = (Except.ok g, r1) ∧
      d.nameErr g.Name = none ∧ d.activeErr g.IsActive = some e ∧
      (resourceGroupRead c r d).data = { d with name := g.Name } := by
  rcases h : c.readGroup r d.id with ⟨x, r1⟩
  cases x with
  | error e => left; rw [read_eq_of_readGroup_error c r r1 d e h]
  | ok g =>
    cases hn : d.nameErr g.Name with
    | some e => left; rw [read_eq_of_name_rejected c r r1 d g e h hn]
    | none =>
      cases ha : d.activeErr g.IsActive with
      | some e =>
        right
        refine ⟨g, r1, e, rfl, hn, ha, ?_⟩
        rw [read_eq_of_active_rejected c r r1 d g e h hn ha]
      | none =>
        rw [read_eq_of_written c r r1 d g h hn ha] at hf
        simp [Result.failed, HasError] at hf

/-- C1, counterexample: a create whose `createGroup` succeeds and whose
follow-up `readGroup` fails returns an error while the id has been assigned,
and a read whose write of `active` is rejected returns an error while the
name has been written. -/
theorem failed_operation_can_leave_partial_state :
    (resourceGroupCreate (unreadableClient sampleGroup sampleErr) ()
      (sampleData "" "ops" false)).failed = true ∧
    (resourceGroupCreate (unreadableClient sampleGroup sampleErr) ()
      (sampleData "" "ops" false)).data.tracked = ("g1", "ops", false) ∧
    (sampleData "" "ops" false).tracked = ("", "ops", false) ∧
    (resourceGroupCreate (unreadableClient sampleGroup sampleErr) ()
      (sampleData "" "ops" false)).data.tracked ≠ (sampleData "" "ops" false).tracked ∧
    (resourceGroupRead (constClient sampleGroup) ()
      (halfWritableData "g1" "dev" sampleErr)).failed = true ∧
    (resourceGroupRead (constClient sampleGroup) ()
      (halfWritableData "g1" "dev" sampleErr)).data.tracked ≠
        (halfWritableData "g1" "dev" sampleErr).tracked := by
  refine ⟨rfl, rfl, rfl, by decide, rfl, by decide⟩

theorem failed_data_bound {σ : Type} (c : Client σ) (r : σ)
    (d : ResourceData) :
    (resourceGroupDelete c r d).data = d ∧
    ((resourceGroupRead c r d).failed = true →
      (resourceGroupRead c r d).data.active = d.active ∧
      (resourceGroupRead c r d).data.id = d.id ∧
      ((resourceGroupRead c r d).data = d ∨
        ∃ (g : Group) (r1 : σ) (e : Err), c.readGroup r d.id = (Except.ok g, r1) ∧
          d.nameErr g.Name = none ∧ d.activeErr g.IsActive = some e ∧
          (resourceGroupRead c r d).data = { d with name := g.Name })) ∧
    ((resourceGroupUpdate c r d).failed = true →
      (resourceGroupUpdate c r d).data.active = d.active ∧
      (resourceGroupUpdate c r d).data.id = d.id ∧
      ((resourceGroupUpdate c r d).data = d ∨
        ∃ (g : Group) (r0 r1 : σ) (e : Err), c.readGroup r0 d.id = (Except.ok g, r1) ∧
          d.nameErr g.Name = none ∧ d.activeErr g.IsActive = some e ∧
          (resourceGroupUpdate c r d).data = { d with name := g.Name })) ∧
    ((resourceGroupCreate c r d).failed = true →
      (resourceGroupCreate c r d).data.active = d.active ∧
      ((resourceGroupCreate c r d).data = d ∨
        ∃ (g0 : Group) (r1 : σ) (i : String), c.createGroup r d.name = (Except.ok g0, r1) ∧
          g0.ID = ID.str i ∧
          ((resourceGroupCreate c r d).data = d.SetId i ∨
            ∃ (g : Group) (r2 : σ) (e : Err), c.readGroup r1 i = (Except.ok g, r2) ∧
              d.nameErr g.Name = none ∧ d.activeErr g.IsActive = some e ∧
              (resourceGroupCreate c r d).data = { d.SetId i with name := g.Name }))) := by
  have hread : ∀ (r0 : σ) (d0 : ResourceData), (resourceGroupRead c r0 d0).failed = true →
      (resourceGroupRead c r0 d0).data.active = d0.active ∧
      (resourceGroupRead c r0 d0).data.id = d0.id ∧
      ((resourceGroupRead c r0 d0).data = d0 ∨
        ∃ (g : Group) (r1 : σ) (e : Err), c.readGroup r0 d0.id = (Except.ok g, r1) ∧
          d0.nameErr g.Name = none ∧ d0.activeErr g.IsActive = some e ∧
          (resourceGroupRead c r0 d0).data = { d0 with name := g.Name }) := by
    intro r0 d0 hf
    have h := read_failed_data c r0 d0 hf
    refine ⟨?_, ?_, h⟩
    · rcases h with h | ⟨g, r1, e, _, _, _, h⟩ <;> rw [h]
    · rcases h with h | ⟨g, r1, e, _, _, _, h⟩ <;> rw [h]
  refine ⟨?_, hread r d, ?_, ?_⟩
  · rcases h : c.deleteGroup r d.id with ⟨oe, r1⟩
    cases oe with
    | none => rw [delete_eq_of_deleted c r r1 d h]
    | some e => rw [delete_eq_of_deleteGroup_error c r r1 d e h]
  · rcases Bool.eq_false_or_eq_true d.nameChanged with hc | hc
    · rcases h : c.updateGroup r d.id d.name with ⟨oe, r1⟩
      cases oe with
      | some e =>
        rw [update_eq_of_updateGroup_error c r r1 d e hc h]
        intro _
        exact ⟨rfl, rfl, Or.inl rfl⟩
      | none =>
        rw [update_eq_of_updated c r r1 d hc h]
        intro hf
        obtain ⟨h1, h2, h3⟩ := hread r1 d hf
        refine ⟨h1, h2, ?_⟩
        rcases h3 with h3 | ⟨g, r2, e, h3⟩
        · exact Or.inl h3
        · exact Or.inr ⟨g, r1, r2, e, h3⟩
    · rw [update_eq_of_unchanged c r d hc]
      intro hf
      obtain ⟨h1, h2, h3⟩ := hread r d hf
      refine ⟨h1, h2, ?_⟩
      rcases h3 with h3 | ⟨g, r1, e, h3⟩
      · exact Or.inl h3
      · exact Or.inr ⟨g, r, r1, e, h3⟩
  · rcases h : c.createGroup r d.name with ⟨x, r1⟩
    cases x with
    | error e =>
      rw [create_eq_of_createGroup_error c r r1 d e h]
      intro _
      exact ⟨rfl, Or.inl rfl⟩
    | ok g0 =>
      cases hid : g0.ID with
      | other =>
        rw [create_eq_of_panic c r r1 d g0 h hid]
        intro _
        exact ⟨rfl, Or.inl rfl⟩
      | str i =>
        rw [create_eq_of_created c r r1 d g0 i h hid]
        intro hf
        obtain ⟨h1, _, h3⟩ := hread r1 (d.SetId i) hf
        refine ⟨h1, Or.inr ⟨g0, r1, i, rfl, hid, ?_⟩⟩
        rcases h3 with h3 | ⟨g, r2, e, h3⟩
        · exact Or.inl h3
        · exact Or.inr ⟨g, r2, e, h3⟩

/-- C1, amended: delete never changes the resource data. Read, on any remote
state and any data: when `readGroup` fails or the write of `name` is rejected
it returns an error and the data is exactly as before; when the write of
`name` is accepted and the write of `active` rejected it returns an error and
the data is exactly the data before with the name `readGroup` returned (id and
active as before); when both writes are accepted it returns no error. Update:
when the name changed and `updateGroup` fails it returns an error and the data
is as before; otherwise its outcome and data are those of read, run on the
remote state `updateGroup` left. Create: when `createGroup` fails it returns
an error and the data is as before; when `createGroup` succeeds with a string
id `i` its outcome and data are those of read on the data with id `i`, so a
failing follow-up `readGroup` returns an error with the id equal to `i` and
nothing undone. Whenever read, update or create returns an error, `active` is
as before. -/
theorem failed_operation_final_state {σ : Type} (c : Client σ) (r : σ) (d : ResourceData) :
    (resourceGroupDelete c r d).data = d ∧
    (∀ (r0 r1 : σ) (d0 : ResourceData) (e : Err),
      c.readGroup r0 d0.Id = (Except.error e, r1) →
      (resourceGroupRead c r0 d0).failed = true ∧ (resourceGroupRead c r0 d0).data = d0) ∧
    (∀ (r0 r1 : σ) (d0 : ResourceData) (g : Group) (e : Err),
      c.readGroup r0 d0.Id = (Except.ok g, r1) → d0.nameErr g.Name = some e →
      (resourceGroupRead c r0 d0).failed = true ∧ (resourceGroupRead c r0 d0).data = d0) ∧
    (∀ (r0 r1 : σ) (d0 : ResourceData) (g : Group) (e : Err),
      c.readGroup r0 d0.Id = (Except.ok g, r1) → d0.nameErr g.Name = none →
      d0.activeErr g.IsActive = some e →
      (resourceGroupRead c r0 d0).failed = true ∧
      (resourceGroupRead c r0 d0).data = { d0 with name := g.Name } ∧
      (resourceGroupRead c r0 d0).data.tracked = (d0.id, g.Name, d0.active)) ∧
    (∀ (r0 r1 : σ) (d0 : ResourceData) (g : Group),
      c.readGroup r0 d0.Id = (Except.ok g, r1) → d0.nameErr g.Name = none →
      d0.activeErr g.IsActive = none →
      (resourceGroupRead c r0 d0).failed = false) ∧
    (d.HasChangeName = true → ∀ (e : Err) (r1 : σ),
      c.updateGroup r d.Id d.GetName = (some e, r1) →
      (resourceGroupUpdate c r d).failed = true ∧ (resourceGroupUpdate c r d).data = d) ∧
    (d.HasChangeName = true → ∀ (r1 : σ), c.updateGroup r d.Id d.GetName = (none, r1) →
      (resourceGroupUpdate c r d).outcome = (resourceGroupRead c r1 d).outcome ∧
      (resourceGroupUpdate c r d).data = (resourceGroupRead c r1 d).data) ∧
    (d.HasChangeName = false →
      (resourceGroupUpdate c r d).outcome = (resourceGroupRead c r d).outcome ∧
      (resourceGroupUpdate c r d).data = (resourceGroupRead c r d).data) ∧
    (∀ (e : Err) (r1 : σ), c.createGroup r d.GetName = (Except.error e, r1) →
      (resourceGroupCreate c r d).failed = true ∧ (resourceGroupCreate c r d).data = d) ∧
    (∀ (g0 : Group) (r1 : σ) (i : String), c.createGroup r d.GetName = (Except.ok g0, r1) →
      g0.ID = ID.str i →
      (resourceGroupCreate c r d).outcome = (resourceGroupRead c r1 (d.SetId i)).outcome ∧
      (resourceGroupCreate c r d).data = (resourceGroupRead c r1 (d.SetId i)).data) ∧
    (∀ (g0 : Group) (r1 r2 : σ) (i : String) (e : Err),
      c.createGroup r d.GetName = (Except.ok g0, r1) → g0.ID = ID.str i →
      c.readGroup r1 i = (Except.error e, r2) →
      (resourceGroupCreate c r d).failed = true ∧
      (resourceGroupCreate c r d).data = d.SetId i ∧
      (resourceGroupCreate c r d).data.tracked = (i, d.name, d.active)) ∧
    ((resourceGroupRead c r d).failed = true →
      (resourceGroupRead c r d).data.active = d.active) ∧
    ((resourceGroupUpdate c r d).failed = true →
      (resourceGroupUpdate c r d).data.active = d.active) ∧
    ((resourceGroupCreate c r d).failed = true →
      (resourceGroupCreate c r d).data.active = d.active) := by
  have hb := failed_data_bound c r d
  refine ⟨hb.1, ?_, ?_, ?_, ?_, ?_, ?_, ?_, ?_, ?_, ?_,
    fun hf => (hb.2.1 hf).1, fun hf => (hb.2.2.1 hf).1, fun hf => (hb.2.2.2 hf).1⟩
  · intro r0 r1 d0 e h
    rw [read_eq_of_readGroup_error c r0 r1 d0 e h]
    exact ⟨by simp only [Result.failed, hasError_fromErr], rfl⟩
  · intro r0 r1 d0 g e h hn
    rw [read_eq_of_name_rejected c r0 r1 d0 g e h hn]
    exact ⟨by simp only [Result.failed, hasError_fromErr], rfl⟩
  · intro r0 r1 d0 g e h hn ha
    rw [read_eq_of_active_rejected c r0 r1 d0 g e h hn ha]
    exact ⟨by simp only [Result.failed, hasError_fromErr], rfl, rfl⟩
  · intro r0 r1 d0 g h hn ha
    rw [read_eq_of_written c r0 r1 d0 g h hn ha]
    simp [Result.failed, HasError]
  · intro hc e r1 h
    rw [update_eq_of_updateGroup_error c r r1 d e hc h]
    exact ⟨by simp only [Result.failed, hasError_fromErr], rfl⟩
  · intro hc r1 h
    rw [update_eq_of_updated c r r1 d hc h]
    exact ⟨rfl, rfl⟩
  · intro hc
    rw [update_eq_of_unchanged c r d hc]
    exact ⟨rfl, rfl⟩
  · intro e r1 h
    rw [create_eq_of_createGroup_error c r r1 d e h]
    exact ⟨by simp only [Result.failed, hasError_fromErr], rfl⟩
  · intro g0 r1 i h hid
    rw [create_eq_of_created c r r1 d g0 i h hid]
    exact ⟨rfl, rfl⟩
  · intro g0 r1 r2 i e h hid hr
    rw [create_eq_of_created c r r1 d g0 i h hid]
    dsimp only [Result.failed]
    rw [read_eq_of_readGroup_error c r1 r2 (d.SetId i) e hr]
    exact ⟨by simp only [hasError_fromErr], rfl, rfl⟩

theorem failed_operation_final_state_witness :
    (unreadableClient sampleGroup sampleErr).createGroup () (sampleData "" "ops" false).GetName
      = (Except.ok sampleGroup, ()) ∧
    (unreadableClient sampleGroup sampleErr).readGroup () "g1" = (Except.error sampleErr, ()) ∧
    (resourceGroupCreate (unreadableClient sampleGroup sampleErr) ()
      (sampleData "" "ops" false)).failed = true ∧
    (resourceGroupCreate (unreadableClient sampleGroup sampleErr) ()
      (sampleData "" "ops" false)).data.tracked = ("g1", "ops", false) ∧
    (resourceGroupRead (constClient sampleGroup) ()
      (halfWritableData "g1" "dev" sampleErr)).failed = true ∧
    (resourceGroupRead (constClient sampleGroup) ()
      (halfWritableData "g1" "dev" sampleErr)).data.tracked = ("g1", "ops", false) :=
  have ⟨_, _, _, _, _, _, _, _, _, _, hcreate, _⟩ :=
    failed_operation_final_state (unreadableClient sampleGroup sampleErr) ()
      (sampleData "" "ops" false)
  have ⟨_, _, _, hread, _⟩ :=
    failed_operation_final_state (constClient sampleGroup) ()
      (halfWritableData "g1" "dev" sampleErr)
  have h := hcreate sampleGroup () () "g1" sampleErr rfl rfl rfl
  have h2 := hread () () (halfWritableData "g1" "dev" sampleErr) sampleGroup sampleErr
    rfl rfl rfl
  ⟨rfl, rfl, h.1, h.2.2, h2.1, h2.2.2⟩

/-! ## How many remote calls an operation makes -/

/-- C2, counterexample: a create against a remote on which every call
succeeds makes two remote calls, `createGroup` and then `readGroup`, and so
does an update of a changed name, `updateGroup` and then `readGroup`. -/
theorem create_and_update_make_two_calls :
    (resourceGroupCreate (constClient sampleGroup) () (sampleData "" "ops" false)).trace
      = [⟨Call.createGroup "ops", true⟩, ⟨Call.readGroup "g1", true⟩] ∧
    ¬ (resourceGroupCreate (constClient sampleGroup) () (sampleData "" "ops" false)).trace.length
      ≤ 1 ∧
    (resourceGroupUpdate (constClient sampleGroup) () (sampleData "g1" "dev" true)).trace
      = [⟨Call.updateGroup "g1" "dev", true⟩, ⟨Call.readGroup "g1", true⟩] ∧
    ¬ (resourceGroupUpdate (constClient sampleGroup) () (sampleData "g1" "dev" true)).trace.length
      ≤ 1 := by
  refine ⟨rfl, by decide, rfl, by decide⟩

/-- C2, amended: read makes exactly the one call `readGroup(id)` and delete
exactly the one call `deleteGroup(id)`. Create calls `createGroup(name)`; when
that fails, or succeeds without a string id, it is the only call; when it
succeeds with a string id `i`, exactly one more call follows, `readGroup(i)`.
Update with an unchanged name makes exactly the one call `readGroup(id)`;
with a changed name it calls `updateGroup(id, name)`, which is the only call
when it fails and is followed by exactly one `readGroup(id)` when it succeeds.
So read and delete make one remote call and create and update at most two. -/
theorem operations_call_sequences {σ : Type} (c : Client σ) (r : σ) (d : ResourceData) :
    (resourceGroupRead c r d).trace
      = [⟨Call.readGroup d.Id, succeeded (c.readGroup r d.Id).1⟩] ∧
    (resourceGroupDelete c r d).trace
      = [⟨Call.deleteGroup d.Id, decide ((c.deleteGroup r d.Id).1 = none)⟩] ∧
    (∀ (e : Err) (r1 : σ), c.createGroup r d.GetName = (Except.error e, r1) →
      (resourceGroupCreate c r d).trace = [⟨Call.createGroup d.GetName, false⟩]) ∧
    (∀ (g0 : Group) (r1 : σ), c.createGroup r d.GetName = (Except.ok g0, r1) →
      g0.ID = ID.other →
      (resourceGroupCreate c r d).trace = [⟨Call.createGroup d.GetName, true⟩]) ∧
    (∀ (g0 : Group) (r1 : σ) (i : String), c.createGroup r d.GetName = (Except.ok g0, r1) →
      g0.ID = ID.str i →
      (resourceGroupCreate c r d).trace
        = [⟨Call.createGroup d.GetName, true⟩,
           ⟨Call.readGroup i, succeeded (c.readGroup r1 i).1⟩]) ∧
    (d.HasChangeName = false →
      (resourceGroupUpdate c r d).trace
        = [⟨Call.readGroup d.Id, succeeded (c.readGroup r d.Id).1⟩]) ∧
    (d.HasChangeName = true → ∀ (e : Err) (r1 : σ),
      c.updateGroup r d.Id d.GetName = (some e, r1) →
      (resourceGroupUpdate c r d).trace = [⟨Call.updateGroup d.Id d.GetName, false⟩]) ∧
    (d.HasChangeName = true → ∀ (r1 : σ), c.updateGroup r d.Id d.GetName = (none, r1) →
      (resourceGroupUpdate c r d).trace
        = [⟨Call.updateGroup d.Id d.GetName, true⟩,
           ⟨Call.readGroup d.Id, succeeded (c.readGroup r1 d.Id).1⟩]) ∧
    (resourceGroupRead c r d).trace.length = 1 ∧
    (resourceGroupDelete c r d).trace.length = 1 ∧
    (resourceGroupCreate c r d).trace.length ≤ 2 ∧
    (resourceGroupUpdate c r d).trace.length ≤ 2 := by
  have hdel : (resourceGroupDelete c r d).trace
      = [⟨Call.deleteGroup d.Id, decide ((c.deleteGroup r d.Id).1 = none)⟩] := by
    rcases h : c.deleteGroup r d.id with ⟨oe, r1⟩
    cases oe with
    | none => rw [delete_eq_of_deleted c r r1 d h]; simp [ResourceData.Id, h]
    | some e => rw [delete_eq_of_deleteGroup_error c r r1 d e h]; simp [ResourceData.Id, h]
  have hcre1 : ∀ (e : Err) (r1 : σ), c.createGroup r d.GetName = (Except.error e, r1) →
      (resourceGroupCreate c r d).trace = [⟨Call.createGroup d.GetName, false⟩] := by
    intro e r1 h
    rw [create_eq_of_createGroup_error c r r1 d e h]
    rfl
  have hcre2 : ∀ (g0 : Group) (r1 : σ), c.createGroup r d.GetName = (Except.ok g0, r1) →
      g0.ID = ID.other →
      (resourceGroupCreate c r d).trace = [⟨Call.createGroup d.GetName, true⟩] := by
    intro g0 r1 h hid
    rw [create_eq_of_panic c r r1 d g0 h hid]
    rfl
  have hcre3 : ∀ (g0 : Group) (r1 : σ) (i : String),
      c.createGroup r d.GetName = (Except.ok g0, r1) → g0.ID = ID.str i →
      (resourceGroupCreate c r d).trace
        = [⟨Call.createGroup d.GetName, true⟩,
           ⟨Call.readGroup i, succeeded (c.readGroup r1 i).1⟩] := by
    intro g0 r1 i h hid
    rw [create_eq_of_created c r r1 d g0 i h hid]
    dsimp only
    rw [read_trace]
    rfl
  have hupd0 : d.HasChangeName = false →
      (resourceGroupUpdate c r d).trace
        = [⟨Call.readGroup d.Id, succeeded (c.readGroup r d.Id).1⟩] := by
    intro hc
    rw [update_eq_of_unchanged c r d hc]
    exact read_trace c r d
  have hupd1 : d.HasChangeName = true → ∀ (e : Err) (r1 : σ),
      c.updateGroup r d.Id d.GetName = (some e, r1) →
      (resourceGroupUpdate c r d).trace = [⟨Call.updateGroup d.Id d.GetName, false⟩] := by
    intro hc e r1 h
    rw [update_eq_of_updateGroup_error c r r1 d e hc h]
    rfl
  have hupd2 : d.HasChangeName = true → ∀ (r1 : σ),
      c.updateGroup r d.Id d.GetName = (none, r1) →
      (resourceGroupUpdate c r d).trace
        = [⟨Call.updateGroup d.Id d.GetName, true⟩,
           ⟨Call.readGroup d.Id, succeeded (c.readGroup r1 d.Id).1⟩] := by
    intro hc r1 h
    rw [update_eq_of_updated c r r1 d hc h]
    dsimp only
    rw [read_trace]
    rfl
  refine ⟨read_trace c r d, hdel, hcre1, hcre2, hcre3, hupd0, hupd1, hupd2, ?_, ?_, ?_, ?_⟩
  · rw [read_trace]; rfl
  · rw [hdel]; rfl
  · rcases h : c.createGroup r d.GetName with ⟨x, r1⟩
    cases x with
    | error e => rw [hcre1 e r1 h]; simp
    | ok g0 =>
      cases hid : g0.ID with
      | other => rw [hcre2 g0 r1 h hid]; simp
      | str i => rw [hcre3 g0 r1 i h hid]; simp
  · rcases Bool.eq_false_or_eq_true d.nameChanged with hc | hc
    · rcases h : c.updateGroup r d.Id d.GetName with ⟨oe, r1⟩
      cases oe with
      | some e => rw [hupd1 hc e r1 h]; simp
      | none => rw [hupd2 hc r1 h]; simp
    · rw [hupd0 hc]; simp

theorem operations_call_sequences_witness :
    (sampleData "g1" "dev" true).HasChangeName = true ∧
    (constClient sampleGroup).updateGroup () (sampleData "g1" "dev" true).Id
      (sampleData "g1" "dev" true).GetName = (none, ()) ∧
    (resourceGroupUpdate (constClient sampleGroup) () (sampleData "g1" "dev" true)).trace
      = [⟨Call.updateGroup "g1" "dev", true⟩, ⟨Call.readGroup "g1", true⟩] ∧
    (resourceGroupCreate (constClient sampleGroup) () (sampleData "" "ops" false)).trace
      = [⟨Call.createGroup "ops", true⟩, ⟨Call.readGroup "g1", true⟩] :=
  have ⟨_, _, _, _, _, _, _, hupdate, _⟩ :=
    operations_call_sequences (constClient sampleGroup) () (sampleData "g1" "dev" true)
  have ⟨_, _, _, _, hcreate, _⟩ :=
    operations_call_sequences (constClient sampleGroup) () (sampleData "" "ops" false)
  ⟨rfl, rfl, hupdate rfl () rfl, hcreate sampleGroup () "g1" rfl rfl⟩

/-! ## A group the remote does not find -/

/-- C3, counterexample: with a non-empty id and a `readGroup` that fails
because the group does not exist, `resourceGroupRead` keeps the id and returns
an error. -/
theorem read_of_missing_group_keeps_id_and_fails :
    (sampleData "g1" "dev" false).id ≠ "" ∧
    (failingClient sampleErr).readGroup () (sampleData "g1" "dev" false).Id
      = (Except.error sampleErr, ()) ∧
    sampleErr.notFound = true ∧
    (resourceGroupRead (failingClient sampleErr) () (sampleData "g1" "dev" false)).data.id
      = "g1" ∧
    (resourceGroupRead (failingClient sampleErr) () (sampleData "g1" "dev" false)).data.id
      ≠ "" ∧
    (resourceGroupRead (failingClient sampleErr) () (sampleData "g1" "dev" false)).failed
      = true := by
  refine ⟨by decide, rfl, rfl, rfl, by decide, rfl⟩

/-- C3, amended: for every local state with a non-empty id, when `readGroup`
fails with an error `e`, whether or not `e` means that the group was not
found, `resourceGroupRead` leaves the resource data as it is (the id stays
non-empty) and returns the single error diagnostic made from the message of
`e`; two failures with the same message give the same result. -/
theorem read_failure_keeps_state_and_reports {σ : Type} (c : Client σ) (r r1 : σ)
    (d : ResourceData) (e : Err) (hid : d.id ≠ "")
    (h : c.readGroup r d.Id = (Except.error e, r1)) :
    (resourceGroupRead c r d).data = d ∧
    (resourceGroupRead c r d).data.id ≠ "" ∧
    (resourceGroupRead c r d).outcome = Outcome.returned [⟨Severity.Error, e.message⟩] ∧
    (resourceGroupRead c r d).failed = true ∧
    ∀ (c2 : Client σ) (e2 : Err), c2.readGroup r d.Id = (Except.error e2, r1) →
      e2.message = e.message →
      (resourceGroupRead c2 r d).outcome = (resourceGroupRead c r d).outcome ∧
      (resourceGroupRead c2 r d).data = (resourceGroupRead c r d).data := by
  rw [read_eq_of_readGroup_error c r r1 d e h]
  refine ⟨rfl, hid, rfl, ?_, ?_⟩
  · simp only [Result.failed, hasError_fromErr]
  · intro c2 e2 h2 hm
    rw [read_eq_of_readGroup_error c2 r r1 d e2 h2]
    simp only [FromErr, hm, and_self]

theorem read_failure_keeps_state_and_reports_witness :
    (sampleData "g1" "dev" false).id ≠ "" ∧
    (resourceGroupRead (failingClient sampleErr) () (sampleData "g1" "dev" false)).outcome
      = Outcome.returned [⟨Severity.Error, "group does not exist"⟩] ∧
    (resourceGroupRead (failingClient sampleErr) () (sampleData "g1" "dev" false)).data.id
      ≠ "" :=
  have h := read_failure_keeps_state_and_reports (failingClient sampleErr) () ()
    (sampleData "g1" "dev" false) sampleErr (by decide) rfl
  ⟨by decide, h.2.2.1, h.2.1⟩

/-! ## Update without a change -/

/-- C4, counterexample: an update with `HasChange("name")` false still makes a
remote call, `readGroup`, and the local state changes to what the remote
answered. -/
theorem update_without_change_still_reads :
    (sampleData "g1" "dev" false).HasChangeName = false ∧
    (resourceGroupUpdate (constClient sampleGroup) () (sampleData "g1" "dev" false)).trace
      = [⟨Call.readGroup "g1", true⟩] ∧
    (resourceGroupUpdate (constClient sampleGroup) () (sampleData "g1" "dev" false)).trace
      ≠ [] ∧
    (resourceGroupUpdate (constClient sampleGroup) () (sampleData "g1" "dev" false)).data.tracked
      = ("g1", "ops", true) ∧
    (resourceGroupUpdate (constClient sampleGroup) () (sampleData "g1" "dev" false)).data.tracked
      ≠ (sampleData "g1" "dev" false).tracked := by
  refine ⟨rfl, rfl, by decide, rfl, by decide⟩

/-- C4, amended: when `HasChange("name")` is false, `resourceGroupUpdate`
makes no `updateGroup` call and is exactly `resourceGroupRead`: it makes the
one call `readGroup(id)` and has the outcome, the final data and the remote
state of that read. -/
theorem update_without_change_is_read {σ : Type} (c : Client σ) (r : σ) (d : ResourceData)
    (hc : d.HasChangeName = false) :
    resourceGroupUpdate c r d = resourceGroupRead c r d ∧
    (resourceGroupUpdate c r d).trace
      = [⟨Call.readGroup d.Id, succeeded (c.readGroup r d.Id).1⟩] ∧
    ∀ ev ∈ (resourceGroupUpdate c r d).trace, ∀ i n, ev.call ≠ Call.updateGroup i n := by
  have hu := update_eq_of_unchanged c r d hc
  rw [hu]
  refine ⟨rfl, read_trace c r d, ?_⟩
  intro ev hev i n
  rw [read_trace, List.mem_singleton] at hev
  rw [hev]
  intro hcall
  cases hcall

theorem update_without_change_is_read_witness :
    (sampleData "g1" "dev" false).HasChangeName = false ∧
    (resourceGroupUpdate (constClient sampleGroup) () (sampleData "g1" "dev" false)).trace
      = [⟨Call.readGroup "g1", true⟩] :=
  ⟨rfl, (update_without_change_is_read (constClient sampleGroup) ()
    (sampleData "g1" "dev" false) rfl).2.1⟩

end Twingate
